import Mathlib

/-!
# Verification of the Tendis Lua scripting engine (`src/tendisplus/script/lua_state.cpp`)

This file gives a shallow embedding of the scripting engine's core pieces:

* the Reply Translator (`redisProtocolToLuaType` and `LuaState::luaReplyToRedisReply`),
* the Command Execution Gateway (`LuaState::luaRedisGenericCommand`),
* the deterministic RNG plumbing (`LuaState::redis_math_random` and the
  per-invocation reseed), and
* the Script Runner (`LuaState::evalGenericCommand` / `LuaState::luaCreateFunction`),

and proves properties of those definitions.  Wire buffers and Lua strings are
modelled as `List Char` (one `Char` per byte; all the wire data involved is
byte-oriented).  Machine integers (`int64_t` lengths and values) are modelled
as `Int`; `lua_Number` (a C `double`) is abstracted to `Int`, which is exact
for every value the claims below exercise.
-/

/- ----------------------------------------------------------------------------
The Lua value model.

Lua values reachable through this engine: numbers, strings, booleans, nil and
tables.  A table is modelled by exactly the three observations the engine
makes of it: the value found under the string key `"err"`, the value found
under the string key `"ok"` (reading an absent key yields Lua `nil`, hence the
`.nil` constructor doubles as "no such field"), and the sequence of values
stored at the integer keys `1, 2, 3, ...` (`LuaArr`; positions past the end of
the stored sequence read as `nil`, which is how the encoder's iteration
terminates).  The two table fields and the array part are mutually inductive
with the value type, mirroring arbitrary nesting.
---------------------------------------------------------------------------- -/

mutual

inductive LuaValue : Type where
  | num (n : Int)
  | str (s : List Char)
  | boolean (b : Bool)
  | nil
  | table (err : LuaValue) (ok : LuaValue) (arr : LuaArr)

inductive LuaArr : Type where
  | anil
  | acons (v : LuaValue) (rest : LuaArr)

end

def listToArr : List LuaValue → LuaArr
  | [] => .anil
  | v :: r => .acons v (listToArr r)

def arrToList : LuaArr → List LuaValue
  | .anil => []
  | .acons v r => v :: arrToList r

/-- A Lua error table `{err = msg}`, as built by `luaPushError` (the optional
`source:line` prefix obtained from the Lua debug API is interpreter-internal
state and is elided here). -/
def errTable (msg : List Char) : LuaValue := .table (.str msg) .nil .anil

/- ----------------------------------------------------------------------------
Wire-format helpers.

Modelled from the spec: the `Command::fmtBulk`, `Command::fmtLongLong`,
`Command::fmtNull`, `Command::fmtOne` and `Command::fmtMultiBulkLen` helpers
live in `commands/command.cpp`, which is not part of the provided source;
spec §4.1/§6/§8 fixes their output to the standard five-tag wire grammar
(`$<len>\r\n<data>\r\n`, `:<n>\r\n`, `$-1\r\n` for nil, `:1\r\n` for one,
`*<n>\r\n`).
---------------------------------------------------------------------------- -/

def crlf : List Char := ['\r', '\n']

def intDigits (n : Int) : List Char :=
  if n < 0 then '-' :: Nat.toDigits 10 (-n).toNat else Nat.toDigits 10 n.toNat

/-- Modelled from the spec: `Command::fmtBulk` (bulk reply). -/
def fmtBulk (s : List Char) : List Char :=
  '$' :: Nat.toDigits 10 s.length ++ crlf ++ s ++ crlf

/-- Modelled from the spec: `Command::fmtLongLong` (integer reply). -/
def fmtLongLong (n : Int) : List Char := ':' :: intDigits n ++ crlf

/-- Modelled from the spec: `Command::fmtNull` (nil bulk reply `$-1\r\n`). -/
def fmtNull : List Char := '$' :: '-' :: '1' :: crlf

/-- Modelled from the spec: `Command::fmtOne` (integer reply `:1\r\n`). -/
def fmtOne : List Char := ':' :: '1' :: crlf

/-- Modelled from the spec: `Command::fmtMultiBulkLen` (multi-bulk header). -/
def fmtMultiBulkLen (n : Nat) : List Char := '*' :: Nat.toDigits 10 n ++ crlf

/-- Modelled from the spec: `redis_port::strmapchars(s, "\r\n", "  ", 2)` from
`utils/redis_port.cpp` (not in the provided source); spec §4.1 describes it as
remapping every embedded CR and LF character to a space. -/
def strmapchars (s : List Char) : List Char :=
  s.map (fun c => if c = '\r' then ' ' else if c = '\n' then ' ' else c)

/- ----------------------------------------------------------------------------
Decoding: `redisProtocolToLuaType` and its per-tag helpers.

`strchr(reply+1, '\r')` followed by `return p+2` is modelled by `splitCR`:
the line is everything before the first CR, and exactly two bytes (the CR and
whatever byte follows it -- the code never checks that it is LF) are skipped.
`string2ll` (a thin wrapper over `tendisplus::stoll`) is modelled by
`parseInt`.  Inputs on which the C code has no defined result (no CR in the
buffer, a non-numeric length whose value is then read uninitialized, a bulk
length larger than the buffer) are mapped to `none`.

The result of a decode step is `some (pushed?, rest)` where `pushed?` is the
value pushed on the Lua stack (`none` when the tag dispatch falls through its
`switch` without a matching case and pushes nothing) and `rest` is the
returned pointer position; `none` at the outer layer marks an undefined
execution.  Nested multi-bulk decoding recurses; the structural `fuel`
argument bounds the nesting depth, and the entry point
`redisProtocolToLuaType` supplies `length + 1` fuel, which exceeds any
nesting depth reachable on a buffer of that length.
---------------------------------------------------------------------------- -/

def splitCR : List Char → Option (List Char × List Char)
  | [] => none
  | '\r' :: _ :: r => some ([], r)
  | ['\r'] => none
  | c :: r =>
    match splitCR r with
    | none => none
    | some (line, rest) => some (c :: line, rest)

def digitVal (c : Char) : Option Nat :=
  if '0' ≤ c ∧ c ≤ '9' then some (c.toNat - '0'.toNat) else none

def parseDigitsAux : List Char → Nat → Option Nat
  | [], acc => some acc
  | c :: r, acc =>
    match digitVal c with
    | some d => parseDigitsAux r (acc * 10 + d)
    | none => none

/-- Model of `tendisplus::stoll` on a trimmed slice: an optional minus sign
followed by a nonempty run of decimal digits. -/
def parseInt : List Char → Option Int
  | [] => none
  | '-' :: r =>
    if r.isEmpty then none
    else
      match parseDigitsAux r 0 with
      | some n => some (-(n : Int))
      | none => none
  | l =>
    match parseDigitsAux l 0 with
    | some n => some ((n : Int))
    | none => none

/-- The loop body of `redisProtocolToLuaType_MultiBulk`: decode `n` child
replies in sequence with the given child decoder, accumulating the pushed
values.  A child that pushes nothing (so that the subsequent `lua_settable`
would pop unrelated stack slots) is undefined behaviour, mapped to `none`. -/
def decodeN (child : List Char → Option (Option LuaValue × List Char)) :
    Nat → List Char → List LuaValue → Option (Option LuaValue × List Char)
  | 0, r, acc => some (some (.table .nil .nil (listToArr acc.reverse)), r)
  | n + 1, r, acc =>
    match child r with
    | some (some v, r2) => decodeN child n r2 (v :: acc)
    | _ => none

def redisProtocolToLuaTypeF : Nat → List Char → Option (Option LuaValue × List Char)
  | 0, _ => none
  | fuel + 1, reply =>
    match reply with
    | [] => some (none, [])
    | c :: rest =>
      if c = ':' then
        match splitCR rest with
        | none => none
        | some (line, r) =>
          match parseInt line with
          | none => none
          | some n => some (some (.num n), r)
      else if c = '$' then
        match splitCR rest with
        | none => none
        | some (line, r) =>
          match parseInt line with
          | none => none
          | some len =>
            if len = -1 then some (some (.boolean false), r)
            else if len < 0 then none
            else if r.length < len.toNat then none
            else some (some (.str (r.take len.toNat)), r.drop (len.toNat + 2))
      else if c = '+' then
        match splitCR rest with
        | none => none
        | some (line, r) => some (some (.table .nil (.str line) .anil), r)
      else if c = '-' then
        match splitCR rest with
        | none => none
        | some (line, r) => some (some (.table (.str line) .nil .anil), r)
      else if c = '*' then
        match splitCR rest with
        | none => none
        | some (line, r) =>
          match parseInt line with
          | none => none
          | some len =>
            if len = -1 then some (some (.boolean false), r)
            else decodeN (redisProtocolToLuaTypeF fuel) len.toNat r []
      else some (none, c :: rest)

/-- `redisProtocolToLuaType` (lua_state.cpp:46): dispatch on the first byte of
the wire reply; when no `case` matches, nothing is pushed and the input
pointer is returned unchanged. -/
def redisProtocolToLuaType (reply : List Char) : Option (Option LuaValue × List Char) :=
  redisProtocolToLuaTypeF (reply.length + 1) reply

/- ----------------------------------------------------------------------------
Encoding: `LuaState::luaReplyToRedisReply` (lua_state.cpp:854).
---------------------------------------------------------------------------- -/

mutual

/-- `LuaState::luaReplyToRedisReply`: convert a Lua value into a wire reply.
A table is first probed for a string-typed `err` field (raw error line with
CR/LF mapped to spaces), then for a string-typed `ok` field (the code sends
`Command::fmtBulk(ok)` for it), and otherwise encoded as a multi-bulk of its
integer-keyed values up to the first `nil`. -/
def luaReplyToRedisReply : LuaValue → List Char
  | .str s => fmtBulk s
  | .boolean b => if b then fmtOne else fmtNull
  | .num n => fmtLongLong n
  | .table err ok arr =>
    match err with
    | .str e => '-' :: (strmapchars e ++ crlf)
    | _ =>
      match ok with
      | .str o => fmtBulk (strmapchars o)
      | _ =>
        let p := encodeArr arr
        fmtMultiBulkLen p.1 ++ p.2
  | .nil => fmtNull

/-- The `while (1)` loop of the table case: encode values at keys `1, 2, ...`
until a `nil` is read, returning the count and the concatenated replies. -/
def encodeArr : LuaArr → Nat × List Char
  | .anil => (0, [])
  | .acons v rest =>
    match v with
    | .nil => (0, [])
    | v =>
      let p := encodeArr rest
      (p.1 + 1, luaReplyToRedisReply v ++ p.2)

end

example : redisProtocolToLuaType (":12\r\n".toList) = some (some (.num 12), []) := rfl
example : redisProtocolToLuaType ("$5\r\nhello\r\n".toList) = some (some (.str "hello".toList), []) := rfl
example : redisProtocolToLuaType ("+OK\r\n".toList) =
    some (some (.table .nil (.str "OK".toList) .anil), []) := rfl
example : redisProtocolToLuaType ("*2\r\n:1\r\n:2\r\n".toList) =
    some (some (.table .nil .nil (.acons (.num 1) (.acons (.num 2) .anil))), []) := rfl
example : luaReplyToRedisReply (.num 3) = ":3\r\n".toList := rfl
example : luaReplyToRedisReply (.table .nil (.str "OK".toList) .anil) = "$2\r\nOK\r\n".toList := rfl
example : luaReplyToRedisReply (.table .nil .nil (.acons (.num 1) (.acons (.num 2) .anil))) =
    "*2\r\n:1\r\n:2\r\n".toList := rfl
example : luaReplyToRedisReply (.boolean false) = "$-1\r\n".toList := rfl

/- ----------------------------------------------------------------------------
The Command Execution Gateway: `LuaState::luaRedisGenericCommand`
(lua_state.cpp:299), the C function behind `redis.call` / `redis.pcall`.

The per-engine execution context fields it reads and writes are gathered in
`GatewayState` (`inuse`, the two dirty flags, `lua_replicate_commands`).  The
externally supplied pieces of one invocation are gathered in `GatewayInput`:
the Lua-stack arguments, the result of `Command::precheck` (the external
command-table collaborator: either an error reply string or the found
command's descriptor flags), and the result of `Command::runSessionCmd` (the
external executor: either an error status string or the command's wire
reply).  Number arguments are formatted with `%.17g` in the C code; numbers
are modelled as `Int`, for which decimal formatting is exact.  The optional
`source:line` prefix that `luaPushError` obtains from the Lua debug API is
elided (see `errTable`).

The outcome distinguishes `returned` (the C function returns 1 with the value
on the stack -- the `redis.pcall` shape) from `raised` (`luaRaiseError` is
invoked, raising the `err` field of the table on the stack -- the
`redis.call`-on-error shape), and records whether `Command::runSessionCmd`
was ever dispatched.
---------------------------------------------------------------------------- -/

structure CmdFlags where
  noscript : Bool
  write : Bool
  random : Bool
  sortForScript : Bool
deriving DecidableEq, Repr

inductive GwArg : Type where
  | str (s : List Char)
  | num (n : Int)
  | other
deriving DecidableEq, Repr

structure GatewayState where
  inuse : Nat
  lua_random_dirty : Bool
  lua_write_dirty : Bool
  lua_replicate_commands : Bool

structure GatewayInput where
  raise_error : Bool
  args : List GwArg
  precheck : Except (List Char) CmdFlags
  runResult : Except (List Char) (List Char)

inductive GatewayOutcome : Type where
  | returned (v : LuaValue)
  | raised (v : LuaValue)

def GatewayOutcome.isRaised : GatewayOutcome → Bool
  | .returned _ => false
  | .raised _ => true

structure GatewayResult where
  state : GatewayState
  outcome : GatewayOutcome
  dispatched : Bool

def recursionMsg : List Char :=
  ("luaRedisGenericCommand() recursive call detected. " ++
   "Are you doing funny stuff with Lua debug hooks?").toList

def needOneArgMsg : List Char :=
  "Please specify at least one argument for redis.call()".toList

def argTypeMsg : List Char :=
  "Lua redis() command arguments must be strings or integers".toList

def noScriptFlagMsg : List Char :=
  "This Redis command is not allowed from scripts".toList

/-- The permission error of lua_state.cpp:411-414 (two adjacent C string
literals; note there is no space between `commands.` and `Call`). -/
def writeAfterRandomMsg : List Char :=
  ("Write commands not allowed after non deterministic commands." ++
   "Call redis.replicate_commands() at the start of your script " ++
   "in order to switch to single commands replication mode.").toList

/-- `luaRaiseError` (lua_state.cpp:165): raise the value found under the
`err` key of the table on the stack top. -/
def luaRaiseErrorVal : LuaValue → LuaValue
  | .table e _ _ => e
  | _ => .nil

/-- The value left on the stack by decoding a wire buffer, as done for
precheck failures, executor failures and executor replies
(lua_state.cpp:392,450,462); a decode with no defined result is abstracted
to `nil`. -/
def decodedOrNil (w : List Char) : LuaValue :=
  match redisProtocolToLuaType w with
  | some (some v, _) => v
  | _ => .nil

/-- The argument-conversion loop (lua_state.cpp:336-354): every Lua-stack
argument must be a string or a number; the loop breaks at the first other
type, which the `j != argc` check turns into a type error. -/
def convertArgs : List GwArg → Option (List (List Char))
  | [] => some []
  | .str s :: r =>
    match convertArgs r with
    | some l => some (s :: l)
    | none => none
  | .num n :: r =>
    match convertArgs r with
    | some l => some (intDigits n :: l)
    | none => none
  | .other :: _ => none

/-- The comparison key of `__redis__compare_helper` (`false` sorts as the
empty string); `table.sort` over other value types is a Lua-level error whose
result the engine ignores, abstracted here to the empty key. -/
def luaCmpKey : LuaValue → List Char
  | .str s => s
  | _ => []

def lexLe : List Char → List Char → Bool
  | [], _ => true
  | _ :: _, [] => false
  | a :: as, b :: bs => if a = b then lexLe as bs else decide (a < b)

def insertByKey (v : LuaValue) : List LuaValue → List LuaValue
  | [] => [v]
  | w :: r => if lexLe (luaCmpKey v) (luaCmpKey w) then v :: w :: r else w :: insertByKey v r

def sortLuaList : List LuaValue → List LuaValue
  | [] => []
  | v :: r => insertByKey v (sortLuaList r)

/-- `luaSortArray` (lua_state.cpp:177): sort the array table on the stack. -/
def sortLuaValue : LuaValue → LuaValue
  | .table e o arr => .table e o (listToArr (sortLuaList (arrToList arr)))
  | v => v

/-- Every exit taken after `ls->inuse++`: the busy counter is decremented
(either by the explicit `ls->inuse--` statements or by the scope guard of
lua_state.cpp:367), and the guard raises the stacked error when
`raise_error` is still set. -/
def gwFinish (s : GatewayState) (raise : Bool) (v : LuaValue) (disp : Bool) : GatewayResult :=
  ⟨{ s with inuse := s.inuse - 1 },
   if raise then .raised (luaRaiseErrorVal v) else .returned v,
   disp⟩

/-- `LuaState::luaRedisGenericCommand` (lua_state.cpp:299). -/
def luaRedisGenericCommand (s : GatewayState) (inp : GatewayInput) : GatewayResult :=
  if s.inuse ≠ 0 then
    -- recursive call detected: push the error table and return 1
    -- (no raise, no busy-flag change)
    ⟨s, .returned (errTable recursionMsg), false⟩
  else
    let s1 : GatewayState := { s with inuse := s.inuse + 1 }
    if inp.args.length = 0 then
      gwFinish s1 inp.raise_error (errTable needOneArgMsg) false
    else
      match convertArgs inp.args with
      | none => gwFinish s1 inp.raise_error (errTable argTypeMsg) false
      | some _ =>
        match inp.precheck with
        | .error e => gwFinish s1 inp.raise_error (decodedOrNil e) false
        | .ok flags =>
          if flags.noscript then
            gwFinish s1 inp.raise_error (errTable noScriptFlagMsg) false
          else if flags.write && s1.lua_random_dirty && !s1.lua_replicate_commands then
            gwFinish s1 inp.raise_error (errTable writeAfterRandomMsg) false
          else
            let s2 : GatewayState :=
              { s1 with
                lua_random_dirty := s1.lua_random_dirty || flags.random,
                lua_write_dirty := s1.lua_write_dirty || flags.write }
            match inp.runResult with
            | .error e => gwFinish s2 inp.raise_error (decodedOrNil e) true
            | .ok reply =>
              let raise2 :=
                if reply.length > 0 ∧ reply.head? ≠ some '-' then false
                else inp.raise_error
              let v := decodedOrNil reply
              let v2 :=
                if flags.sortForScript && !s2.lua_replicate_commands &&
                   decide (reply.length > 1) &&
                   decide (reply.head? = some '*') && decide (reply.get? 1 ≠ some '-') then
                  sortLuaValue v
                else v
              gwFinish s2 raise2 v2 true

/- ----------------------------------------------------------------------------
The deterministic RNG.

`LuaState::redis_math_random` / `redis_math_randomseed` (lua_state.cpp:262)
draw from `ls->_rand`, whose `redisLrand48` / `redisSrand48` live in
`utils/redis_port` (not part of the provided source).  Modelled from the
spec: §4.3 step 4 and §5 describe it as a deterministic linear-congruential
generator, the 48-bit lrand48 family (state `x ← (0x5DEECE66D·x + 0xB) mod
2^48`, seeded as `(seed·2^16 + 0x330E) mod 2^48`, each draw returning the
top 31 bits of the new state).  `redis_math_random` reduces the draw modulo
`REDIS_LRAND48_MAX` before converting to a Lua number; the `lua_Number`
division by `REDIS_LRAND48_MAX` is a pure function of that residue, so the
residue sequence below determines the script-visible output sequence.
---------------------------------------------------------------------------- -/

def REDIS_LRAND48_MAX : Nat := 0x7FFFFFFF

/-- Modelled from the spec: `redisSrand48` seeding of the 48-bit LCG state. -/
def redisSrand48 (seed : Nat) : Nat := (seed % 2 ^ 32 * 2 ^ 16 + 0x330E) % 2 ^ 48

/-- Modelled from the spec: one LCG state transition of the rand48 family. -/
def rand48Step (x : Nat) : Nat := (0x5DEECE66D * x + 0xB) % 2 ^ 48

/-- One `math.random()` draw as in `LuaState::redis_math_random`
(lua_state.cpp:267): advance the state and take `redisLrand48() %
REDIS_LRAND48_MAX` (the `lrand48` value is the top 31 of the 48 state
bits). -/
def mathRandomDraw (x : Nat) : Nat × Nat :=
  let x2 := rand48Step x
  (x2, x2 / 2 ^ 17 % REDIS_LRAND48_MAX)

/-- The sequence of `n` consecutive `math.random()` residues drawn from LCG
state `x`. -/
def rngOutputs (x : Nat) : Nat → List Nat
  | 0 => []
  | n + 1 => (mathRandomDraw x).2 :: rngOutputs (mathRandomDraw x).1 n

/-- The LCG state after `n` draws from state `x`. -/
def rngSeedAfter (x : Nat) : Nat → Nat
  | 0 => x
  | n + 1 => rngSeedAfter (rand48Step x) n

/- ----------------------------------------------------------------------------
The Script Runner: `LuaState::evalGenericCommand` (lua_state.cpp:1001),
including the cache-or-compile resolution of `LuaState::luaCreateFunction`
(lua_state.cpp:202).

Engine state carried across invocations is `EvalState`: the set of function
names defined in the interpreter's global namespace (a compiled script stays
defined for the life of the interpreter), the LCG state, and the
per-invocation flags.  External collaborators and the interpreter's own
behaviour during the run are parameters bundled in `EvalExt`:

* `sha1hex` -- the SHA1 digest function (`LuaState::sha1hex` wraps the
  `sha1.h` library, not part of the provided source); the theorems below
  hold for every digest function.
* `compileOk` -- whether `luaL_loadbuffer` + `lua_pcall` of the wrapper
  chunk `function f_<digest>() <body>\nend` succeed (interpreter-internal).
* `lockOk` -- whether `SegmentMgr::getAllKeysLocked` (external lock manager)
  succeeds.
* `luaTimeLimit` -- the configured time limit (`lua_sethook` is installed
  iff it is positive).
* `scriptOk`/`scriptErr`/`scriptValue` -- the outcome of `lua_pcall` on the
  resolved function (the script body's behaviour is interpreter-internal).
* `scriptDraws` -- how many `math.random()` draws the script performs, which
  is how the deterministic-RNG claims observe the run.

The trace records the invocation's steps in order; `EvalEvent.isInterp`
marks the ones that interact with the interpreter (the RNG reseed mutates
only engine state, and key locking is the external lock manager).

Modelled from the spec: on the hash-only path (`evalsha` set) this function
leaves `funcname[2..42]` unwritten -- the caller that fills in the digest is
not part of the provided source.  Spec §4.2/§6 (name = marker + digest,
lookup by the client-supplied hash) fixes the looked-up name to the marker
plus the lowercased digest argument `args[1]`.
---------------------------------------------------------------------------- -/

structure EvalState where
  globals : List String
  randSeed : Nat
  lua_random_dirty : Bool
  lua_write_dirty : Bool
  lua_replicate_commands : Bool

structure EvalExt where
  sha1hex : String → String
  compileOk : Bool
  lockOk : Bool
  luaTimeLimit : Int
  scriptOk : Bool
  scriptErr : String
  scriptValue : LuaValue
  scriptDraws : Nat

inductive EvalEvent : Type where
  | reseedRng
  | pushErrHandler
  | lookupFunction (name : String)
  | compile (name : String)
  | bindKeys (keys : List String)
  | bindArgv (argv : List String)
  | lockKeys (keys : List String)
  | setHook
  | callFunction (name : String)
deriving DecidableEq, Repr

def EvalEvent.isInterp : EvalEvent → Bool
  | .reseedRng => false
  | .lockKeys _ => false
  | _ => true

structure EvalOut where
  state : EvalState
  trace : List EvalEvent
  result : Except String (List Char)
  rngOut : List Nat

def noScriptErrMsg : String := "-NOSCRIPT No matching script. Please use EVAL.\r\n"

def numkeysTooManyMsg : String := "Number of keys can't be greater than number of args"

def numkeysNegativeMsg : String := "Number of keys can't be negative"

/-- The tail of `evalGenericCommand` from the KEYS/ARGV binding on
(lua_state.cpp:1065-1134): bind the two global arrays, lock the declared
keys, install the timeout hook when configured, call the resolved function
and translate its result. -/
def evalRun (ext : EvalExt) (st : EvalState) (args : List String) (nk : Nat)
    (funcname : String) (tr : List EvalEvent) : EvalOut :=
  let keys := (args.drop 3).take nk
  let argv := args.drop (3 + nk)
  let tr2 := tr ++ [.bindKeys keys, .bindArgv argv, .lockKeys keys]
  if !ext.lockOk then
    ⟨st, tr2, .error "getAllKeysLocked failed", []⟩
  else
    let tr3 := tr2 ++ (if ext.luaTimeLimit > 0 then [.setHook] else []) ++
               [.callFunction funcname]
    let outs := rngOutputs st.randSeed ext.scriptDraws
    let st2 := { st with randSeed := rngSeedAfter st.randSeed ext.scriptDraws }
    if ext.scriptOk then
      ⟨st2, tr3, .ok (luaReplyToRedisReply ext.scriptValue), outs⟩
    else
      ⟨st2, tr3, .error ("Error running script (call to " ++ funcname ++ "):" ++
                         ext.scriptErr), outs⟩

/-- `LuaState::evalGenericCommand` (lua_state.cpp:1001): reseed the RNG and
reset the per-invocation flags, validate `numkeys`, resolve the function
(cache hit, `NOSCRIPT` failure, or compile via `luaCreateFunction`, which
makes the name permanently resident in the global namespace), then run. -/
def evalGenericCommand (ext : EvalExt) (st0 : EvalState) (args : List String)
    (evalsha : Bool) : EvalOut :=
  let st : EvalState :=
    { st0 with
      randSeed := redisSrand48 0,
      lua_random_dirty := false,
      lua_write_dirty := false,
      lua_replicate_commands := false }
  let tr0 : List EvalEvent := [.reseedRng]
  match parseInt (args.getD 2 "").toList with
  | none => ⟨st, tr0, .error "ERR value is not an integer or out of range", []⟩
  | some numkeys =>
    if numkeys > (args.length : Int) - 3 then
      ⟨st, tr0, .error numkeysTooManyMsg, []⟩
    else if numkeys < 0 then
      ⟨st, tr0, .error numkeysNegativeMsg, []⟩
    else
      let nk := numkeys.toNat
      let funcname :=
        if evalsha then "f_" ++ (args.getD 1 "").toLower
        else "f_" ++ ext.sha1hex (args.getD 1 "")
      let tr1 := tr0 ++ [.pushErrHandler, .lookupFunction funcname]
      if funcname ∈ st.globals then
        evalRun ext st args nk funcname tr1
      else if evalsha then
        ⟨st, tr1, .error noScriptErrMsg, []⟩
      else if ext.compileOk then
        evalRun ext { st with globals := funcname :: st.globals } args nk funcname
          (tr1 ++ [.compile funcname, .lookupFunction funcname])
      else
        ⟨st, tr1 ++ [.compile funcname], .error "luaCreateFunction failed", []⟩

/- ----------------------------------------------------------------------------
Claims about the Reply Translator.
---------------------------------------------------------------------------- -/

/-- Claim C1: the claimed round-trip `encode(decode(x)) = x` fails on the code
for the Status tag.  Decoding the status reply `+OK\r\n` yields the Lua table
`{ok = "OK"}` as specified, but `luaReplyToRedisReply` re-encodes that table
with `Command::fmtBulk(ok)` (lua_state.cpp:905), producing the bulk reply
`$2\r\nOK\r\n` instead of `+OK\r\n`.  (The nil conventions the claim states
do hold: encoding boolean `false` yields the nil bulk reply `$-1\r\n`, never
`*-1\r\n`.) -/
theorem C1_status_roundtrip_fails :
    redisProtocolToLuaType ("+OK\r\n".toList) =
      some (some (.table .nil (.str "OK".toList) .anil), []) ∧
    luaReplyToRedisReply (.table .nil (.str "OK".toList) .anil) = "$2\r\nOK\r\n".toList ∧
    "$2\r\nOK\r\n".toList ≠ "+OK\r\n".toList ∧
    luaReplyToRedisReply (.boolean false) = "$-1\r\n".toList ∧
    "$-1\r\n".toList ≠ "*-1\r\n".toList := by
  refine ⟨rfl, rfl, by decide, rfl, by decide⟩

/-- Claim C2: the encoder does inspect a table for a string-typed `err` entry
first and produce a CR/LF-sanitized wire error reply for it (shown here with
a non-string `err` entry being skipped as the type check requires), but for a
string-typed `ok` entry it produces a CR/LF-sanitized *bulk* reply
(`Command::fmtBulk(ok)`, lua_state.cpp:905), not the wire status reply the
claim describes: the emitted reply starts with `$`, not `+`. -/
theorem C2_ok_entry_encoded_as_bulk :
    luaReplyToRedisReply (.table (.str "a\r\nb".toList) (.str "X".toList) .anil) =
      "-a  b\r\n".toList ∧
    luaReplyToRedisReply (.table (.num 7) (.str "O\rK".toList) .anil) =
      "$3\r\nO K\r\n".toList ∧
    List.head? ("$3\r\nO K\r\n".toList) ≠ some '+' := by
  refine ⟨rfl, rfl, by decide⟩

/-- Claim C10: for an input buffer whose first byte is none of the five tags
`:`, `$`, `+`, `-`, `*`, the tag dispatch of `redisProtocolToLuaType`
(lua_state.cpp:49-55) has no default branch: nothing is pushed and the input
pointer is returned unchanged. -/
theorem C10_unknown_tag_no_progress (c : Char) (rest : List Char)
    (h : c ∉ [':', '$', '+', '-', '*']) :
    redisProtocolToLuaType (c :: rest) = some (none, c :: rest) := by
  have h1 : c ≠ ':' := fun e => h (by simp [e])
  have h2 : c ≠ '$' := fun e => h (by simp [e])
  have h3 : c ≠ '+' := fun e => h (by simp [e])
  have h4 : c ≠ '-' := fun e => h (by simp [e])
  have h5 : c ≠ '*' := fun e => h (by simp [e])
  simp [redisProtocolToLuaType, redisProtocolToLuaTypeF, h1, h2, h3, h4, h5]

/-- Witness for C10 at the concrete buffer `Xabc`. -/
theorem C10_unknown_tag_no_progress_witness :
    'X' ∉ [':', '$', '+', '-', '*'] ∧
    redisProtocolToLuaType ('X' :: "abc".toList) = some (none, 'X' :: "abc".toList) :=
  ⟨by decide, C10_unknown_tag_no_progress 'X' "abc".toList (by decide)⟩

/- ----------------------------------------------------------------------------
Claims about the Command Execution Gateway.
---------------------------------------------------------------------------- -/

/-- Concrete gateway inputs used by witnesses: an idle engine, a busy engine,
and three command invocations (a generic read, a nondeterministic command, a
write command). -/
def gwIdleState : GatewayState := ⟨0, false, false, false⟩

def gwBusyState : GatewayState := ⟨1, false, false, false⟩

def gwReadInput : GatewayInput :=
  ⟨true, [.str "get".toList, .str "k".toList],
   .ok ⟨false, false, false, false⟩, .ok ("$-1\r\n".toList)⟩

def gwRandomInput : GatewayInput :=
  ⟨true, [.str "randomkey".toList],
   .ok ⟨false, false, true, false⟩, .ok ("$1\r\nk\r\n".toList)⟩

def gwWriteInput : GatewayInput :=
  ⟨true, [.str "set".toList, .str "k".toList, .str "v".toList],
   .ok ⟨false, true, false, false⟩, .ok ("+OK\r\n".toList)⟩

theorem gw_random_dirty_sticky (t : GatewayState) (inp : GatewayInput)
    (h : t.lua_random_dirty = true) :
    (luaRedisGenericCommand t inp).state.lua_random_dirty = true := by
  unfold luaRedisGenericCommand gwFinish
  repeat' split
  all_goals simp_all
  all_goals (split <;> simp_all)

theorem gw_write_dirty_sticky (t : GatewayState) (inp : GatewayInput)
    (h : t.lua_write_dirty = true) :
    (luaRedisGenericCommand t inp).state.lua_write_dirty = true := by
  unfold luaRedisGenericCommand gwFinish
  repeat' split
  all_goals simp_all
  all_goals (split <;> simp_all)

/-- A gateway invocation that reaches command dispatch: the busy counter is
restored, both dirty flags absorb the command's flags, the replication-mode
flag is untouched, and the command is dispatched. -/
theorem gw_exec (s : GatewayState) (inp : GatewayInput) (f : CmdFlags)
    (h0 : s.inuse = 0) (h1 : inp.args.length ≠ 0)
    (h2 : (convertArgs inp.args).isSome = true)
    (h3 : inp.precheck = .ok f) (h4 : f.noscript = false)
    (h5 : (f.write && s.lua_random_dirty && !s.lua_replicate_commands) = false) :
    (luaRedisGenericCommand s inp).state.inuse = 0 ∧
    (luaRedisGenericCommand s inp).state.lua_random_dirty =
      (s.lua_random_dirty || f.random) ∧
    (luaRedisGenericCommand s inp).state.lua_write_dirty =
      (s.lua_write_dirty || f.write) ∧
    (luaRedisGenericCommand s inp).state.lua_replicate_commands =
      s.lua_replicate_commands ∧
    (luaRedisGenericCommand s inp).dispatched = true := by
  obtain ⟨l, hl⟩ := Option.isSome_iff_exists.mp h2
  have hgate : ¬((f.write = true ∧ s.lua_random_dirty = true) ∧
      s.lua_replicate_commands = false) := by
    rintro ⟨⟨hfw, hrd⟩, hrep⟩
    rw [hfw, hrd, hrep] at h5
    simp at h5
  unfold luaRedisGenericCommand
  rw [hl, h3]
  cases hrr : inp.runResult <;>
    simp_all [gwFinish, -Bool.and_eq_false_imp]

/-- A gateway invocation of a write-flagged command while the random-dirty
flag is set and single-command replication is off: rejected with the
documented permission error before dispatch, state unchanged but for the
restored busy counter. -/
theorem gw_write_gate (s : GatewayState) (inp : GatewayInput) (f : CmdFlags)
    (h0 : s.inuse = 0) (h1 : inp.args.length ≠ 0)
    (h2 : (convertArgs inp.args).isSome = true)
    (h3 : inp.precheck = .ok f) (h4 : f.noscript = false)
    (hw : f.write = true) (hrd : s.lua_random_dirty = true)
    (hrep : s.lua_replicate_commands = false) :
    (luaRedisGenericCommand s inp).dispatched = false ∧
    (luaRedisGenericCommand s inp).outcome =
      (if inp.raise_error then .raised (.str writeAfterRandomMsg)
       else .returned (errTable writeAfterRandomMsg)) ∧
    (luaRedisGenericCommand s inp).state.inuse = 0 := by
  obtain ⟨l, hl⟩ := Option.isSome_iff_exists.mp h2
  unfold luaRedisGenericCommand
  rw [hl, h3]
  simp_all [gwFinish, errTable, luaRaiseErrorVal]

/-- Claim C3: in whole-script replication mode (`lua_replicate_commands`
off), a command marked nondeterministic sets the sticky per-invocation
random-dirty flag; a write-flagged command issued afterwards is rejected
with the documented permission error (lua_state.cpp:409-417) and is not
dispatched to the command executor; the gateway never clears either dirty
flag, and an executed write-flagged command sets the sticky write-dirty
flag. -/
theorem C3_write_after_random_rejected
    (s : GatewayState) (r w : GatewayInput) (rf wf : CmdFlags)
    (t1 t2 t3 : GatewayState) (i1 i2 i3 : GatewayInput) (f3 : CmdFlags)
    (hs0 : s.inuse = 0) (hrep : s.lua_replicate_commands = false)
    (hr1 : r.args.length ≠ 0) (hr2 : (convertArgs r.args).isSome = true)
    (hr3 : r.precheck = .ok rf) (hr4 : rf.noscript = false)
    (hr5 : rf.random = true) (hr6 : rf.write = false)
    (hw1 : w.args.length ≠ 0) (hw2 : (convertArgs w.args).isSome = true)
    (hw3 : w.precheck = .ok wf) (hw4 : wf.noscript = false) (hw5 : wf.write = true)
    (hw6 : w.raise_error = true)
    (ht1 : t1.lua_random_dirty = true) (ht2 : t2.lua_write_dirty = true)
    (h30 : t3.inuse = 0) (h3rd : t3.lua_random_dirty = false)
    (h31 : i3.args.length ≠ 0) (h32 : (convertArgs i3.args).isSome = true)
    (h33 : i3.precheck = .ok f3) (h34 : f3.noscript = false) (h35 : f3.write = true) :
    (luaRedisGenericCommand s r).state.lua_random_dirty = true ∧
    (luaRedisGenericCommand (luaRedisGenericCommand s r).state w).dispatched = false ∧
    (luaRedisGenericCommand (luaRedisGenericCommand s r).state w).outcome =
      .raised (.str writeAfterRandomMsg) ∧
    (luaRedisGenericCommand t1 i1).state.lua_random_dirty = true ∧
    (luaRedisGenericCommand t2 i2).state.lua_write_dirty = true ∧
    (luaRedisGenericCommand t3 i3).state.lua_write_dirty = true := by
  have hgate0 : (rf.write && s.lua_random_dirty && !s.lua_replicate_commands) = false := by
    rw [hr6]
    rfl
  obtain ⟨e0, erd, ewd, erep, ed⟩ := gw_exec s r rf hs0 hr1 hr2 hr3 hr4 hgate0
  have hrd1 : (luaRedisGenericCommand s r).state.lua_random_dirty = true := by
    rw [erd, hr5, Bool.or_true]
  obtain ⟨g1, g2, g3⟩ :=
    gw_write_gate (luaRedisGenericCommand s r).state w wf e0 hw1 hw2 hw3 hw4 hw5 hrd1
      (by rw [erep, hrep])
  have hgate3 : (f3.write && t3.lua_random_dirty && !t3.lua_replicate_commands) = false := by
    rw [h3rd]
    simp
  obtain ⟨-, -, ewd3, -, -⟩ := gw_exec t3 i3 f3 h30 h31 h32 h33 h34 hgate3
  refine ⟨hrd1, g1, ?_, gw_random_dirty_sticky t1 i1 ht1, gw_write_dirty_sticky t2 i2 ht2, ?_⟩
  · rw [g2, hw6]
    rfl
  · rw [ewd3, h35, Bool.or_true]

/-- Witness for C3: a `RANDOMKEY`-like command followed by a `SET`-like
command on an idle engine in whole-script replication mode. -/
theorem C3_write_after_random_rejected_witness :
    (luaRedisGenericCommand gwIdleState gwRandomInput).state.lua_random_dirty = true ∧
    (luaRedisGenericCommand (luaRedisGenericCommand gwIdleState gwRandomInput).state
        gwWriteInput).dispatched = false ∧
    (luaRedisGenericCommand (luaRedisGenericCommand gwIdleState gwRandomInput).state
        gwWriteInput).outcome = .raised (.str writeAfterRandomMsg) ∧
    (luaRedisGenericCommand ⟨0, true, false, false⟩ gwReadInput).state.lua_random_dirty = true ∧
    (luaRedisGenericCommand ⟨0, false, true, false⟩ gwReadInput).state.lua_write_dirty = true ∧
    (luaRedisGenericCommand gwIdleState gwWriteInput).state.lua_write_dirty = true :=
  by
  refine C3_write_after_random_rejected gwIdleState gwRandomInput gwWriteInput
    ⟨false, false, true, false⟩ ⟨false, true, false, false⟩
    ⟨0, true, false, false⟩ ⟨0, false, true, false⟩ gwIdleState
    gwReadInput gwReadInput gwWriteInput ⟨false, true, false, false⟩
    ?_ ?_ ?_ ?_ ?_ ?_ ?_ ?_ ?_ ?_ ?_ ?_ ?_ ?_ ?_ ?_ ?_ ?_ ?_ ?_ ?_ ?_ ?_ <;> first | rfl | decide

/-- C4 counterexample: the claim says a nested invocation is *raised* as an
interpreter error when `raiseOnError` is set; in the code the reentrancy
branch (lua_state.cpp:316-323) pushes the error table and returns it as data
unconditionally -- `luaRaiseError` is never reached on this path (the
raising scope guard is only installed later, at lua_state.cpp:367).  Here a
`redis.call`-shaped input (`raise_error = true`) against a busy engine still
yields `returned`, not `raised`. -/
theorem C4_counterexample_nested_not_raised :
    gwReadInput.raise_error = true ∧
    gwBusyState.inuse ≠ 0 ∧
    (luaRedisGenericCommand gwBusyState gwReadInput).outcome =
      .returned (errTable recursionMsg) ∧
    GatewayOutcome.isRaised (luaRedisGenericCommand gwBusyState gwReadInput).outcome =
      false :=
  ⟨rfl, by decide, rfl, rfl⟩

/-- Claim C4 (amended): a nested invocation while the busy flag is set is
rejected with the fixed diagnostic, which is returned as error-table data
regardless of `raiseOnError` and is not dispatched; and on every exit path of
the gateway the busy flag is restored to its prior value, so the next
independent invocation proceeds. -/
theorem C4_busy_flag_restored (s s2 : GatewayState) (inp inp2 : GatewayInput)
    (hbusy : s2.inuse ≠ 0) :
    (luaRedisGenericCommand s inp).state.inuse = s.inuse ∧
    (luaRedisGenericCommand s2 inp2).outcome = .returned (errTable recursionMsg) ∧
    (luaRedisGenericCommand s2 inp2).dispatched = false ∧
    (luaRedisGenericCommand s2 inp2).state.inuse = s2.inuse := by
  refine ⟨?_, ?_, ?_, ?_⟩
  · unfold luaRedisGenericCommand gwFinish
    repeat' split
    all_goals (try simp)
    all_goals (repeat' split)
    all_goals simp
  · simp [luaRedisGenericCommand, hbusy]
  · simp [luaRedisGenericCommand, hbusy]
  · simp [luaRedisGenericCommand, hbusy]

/-- Witness for C4 (amended) on a busy engine and an idle engine. -/
theorem C4_busy_flag_restored_witness :
    (luaRedisGenericCommand gwIdleState gwReadInput).state.inuse = gwIdleState.inuse ∧
    (luaRedisGenericCommand gwBusyState gwReadInput).outcome =
      .returned (errTable recursionMsg) ∧
    (luaRedisGenericCommand gwBusyState gwReadInput).dispatched = false ∧
    (luaRedisGenericCommand gwBusyState gwReadInput).state.inuse = gwBusyState.inuse :=
  C4_busy_flag_restored gwIdleState gwBusyState gwReadInput gwReadInput (by decide)

/- ----------------------------------------------------------------------------
Claims about the Script Runner and the deterministic RNG.
---------------------------------------------------------------------------- -/

/-- Concrete runner parameters and states used by witnesses: a constant
digest function, compilation/locking succeeding, a positive time limit, a
script that returns `1` after two `math.random()` draws. -/
def evalExt0 : EvalExt :=
  ⟨fun _ => "da39a3ee5e6b4b0d3255bfef95601890afd80709", true, true, 1000, true, "", .num 1, 2⟩

def evalSt0 : EvalState := ⟨[], 0, false, false, false⟩

/-- A second engine state with different globals, RNG state and flags. -/
def evalStAlt : EvalState := ⟨["f_other"], 987654321, true, true, true⟩

def evalArgs00 : List String := ["eval", "return 1", "0"]

theorem evalRun_out (ext : EvalExt) (st : EvalState) (args : List String)
    (nk : Nat) (fn : String) (tr : List EvalEvent) (hl : ext.lockOk = true) :
    (evalRun ext st args nk fn tr).trace =
      tr ++ [.bindKeys ((args.drop 3).take nk), .bindArgv (args.drop (3 + nk)),
             .lockKeys ((args.drop 3).take nk)] ++
      (if ext.luaTimeLimit > 0 then [EvalEvent.setHook] else []) ++
      [.callFunction fn] ∧
    (evalRun ext st args nk fn tr).state.globals = st.globals ∧
    (evalRun ext st args nk fn tr).rngOut = rngOutputs st.randSeed ext.scriptDraws := by
  unfold evalRun
  rw [hl]
  repeat' split
  all_goals simp_all

/-- Claim C5: `evalGenericCommand` reseeds the deterministic LCG to the fixed
seed 0 (lua_state.cpp:1011) before running the script, so the sequence of
`math.random()` residues the script observes is a function of the draw count
alone -- in particular two invocations from arbitrary different engine states
produce identical output sequences. -/
theorem C5_reseed_determinism (ext : EvalExt) (st1 st2 : EvalState)
    (args : List String) (nk : Int)
    (hp : parseInt (args.getD 2 "").toList = some nk)
    (h1 : ¬(nk > (args.length : Int) - 3)) (h2 : ¬(nk < 0))
    (hc : ext.compileOk = true) (hl : ext.lockOk = true) :
    (evalGenericCommand ext st1 args false).rngOut =
      rngOutputs (redisSrand48 0) ext.scriptDraws ∧
    (evalGenericCommand ext st1 args false).rngOut =
      (evalGenericCommand ext st2 args false).rngOut := by
  have key : ∀ st : EvalState,
      (evalGenericCommand ext st args false).rngOut =
        rngOutputs (redisSrand48 0) ext.scriptDraws := by
    intro st
    unfold evalGenericCommand
    rw [hp]
    dsimp only
    rw [if_neg h1, if_neg h2]
    simp only [if_neg Bool.false_ne_true]
    rw [if_pos hc]
    split
    · exact (evalRun_out ext _ args nk.toNat _ _ hl).2.2
    · exact (evalRun_out ext _ args nk.toNat _ _ hl).2.2
  exact ⟨key st1, (key st1).trans (key st2).symm⟩

/-- Witness for C5: the same script run from two different engine states
(different globals, RNG state and dirty flags) yields the same residue
sequence. -/
theorem C5_reseed_determinism_witness :
    (evalGenericCommand evalExt0 evalSt0 evalArgs00 false).rngOut =
      rngOutputs (redisSrand48 0) evalExt0.scriptDraws ∧
    (evalGenericCommand evalExt0 evalSt0 evalArgs00 false).rngOut =
      (evalGenericCommand evalExt0 evalStAlt evalArgs00 false).rngOut :=
  C5_reseed_determinism evalExt0 evalSt0 evalStAlt evalArgs00 0
    rfl (by decide) (by decide) rfl rfl

/-- Claim C6: a declared key count violating `0 ≤ numkeys ≤ len(args) - 3` is
rejected (lua_state.cpp:1020-1030) with the corresponding error -- the
too-many check runs first -- and the rejection happens before any interaction
with the interpreter: every event on the trace of such a run is an
engine-internal one (only the RNG reseed has happened; no error-handler push,
no function lookup, no compilation, no KEYS/ARGV binding, no call). -/
theorem C6_invalid_numkeys_rejected_early (ext : EvalExt) (st : EvalState)
    (args : List String) (evalsha : Bool) (nk : Int)
    (hp : parseInt (args.getD 2 "").toList = some nk)
    (hbad : nk < 0 ∨ nk > (args.length : Int) - 3) :
    ((evalGenericCommand ext st args evalsha).result = .error numkeysTooManyMsg ∨
     (evalGenericCommand ext st args evalsha).result = .error numkeysNegativeMsg) ∧
    (nk > (args.length : Int) - 3 →
      (evalGenericCommand ext st args evalsha).result = .error numkeysTooManyMsg) ∧
    (¬nk > (args.length : Int) - 3 →
      (evalGenericCommand ext st args evalsha).result = .error numkeysNegativeMsg) ∧
    ∀ e ∈ (evalGenericCommand ext st args evalsha).trace, e.isInterp = false := by
  unfold evalGenericCommand
  rw [hp]
  dsimp only
  by_cases hgt : nk > (args.length : Int) - 3
  · rw [if_pos hgt]
    refine ⟨Or.inl rfl, fun _ => rfl, fun h => absurd hgt h, ?_⟩
    intro e he
    simp only [List.mem_singleton] at he
    rw [he]
    rfl
  · have hneg : nk < 0 := hbad.resolve_right hgt
    rw [if_neg hgt, if_pos hneg]
    refine ⟨Or.inr rfl, fun h => absurd h hgt, fun _ => rfl, ?_⟩
    intro e he
    simp only [List.mem_singleton] at he
    rw [he]
    rfl

/-- Witness for C6: `numkeys = 5` declared with no keys present. -/
theorem C6_invalid_numkeys_rejected_early_witness :
    (evalGenericCommand evalExt0 evalSt0 ["eval", "return 1", "5"] false).result =
      .error numkeysTooManyMsg ∧
    (evalGenericCommand evalExt0 evalSt0 ["eval", "return 1", "5"] false).trace =
      [EvalEvent.reseedRng] :=
  ⟨(C6_invalid_numkeys_rejected_early evalExt0 evalSt0 ["eval", "return 1", "5"] false 5
      rfl (Or.inr (by decide))).2.1 (by decide), rfl⟩

/-- Claim C7: a hash-only invocation (`evalsha` set, so compilation is not
allowed) whose digest-derived function name is not defined in the
interpreter's global namespace terminates with the `NOSCRIPT` error
(lua_state.cpp:1048-1052), whose reply text contains `NOSCRIPT`, and no
compilation event ever appears on the trace. -/
theorem C7_evalsha_unknown_digest_noscript (ext : EvalExt) (st : EvalState)
    (args : List String) (nk : Int)
    (hp : parseInt (args.getD 2 "").toList = some nk)
    (h1 : ¬nk > (args.length : Int) - 3) (h2 : ¬nk < 0)
    (hmem : ("f_" ++ (args.getD 1 "").toLower) ∉ st.globals) :
    (evalGenericCommand ext st args true).result = .error noScriptErrMsg ∧
    noScriptErrMsg.toList =
      '-' :: ("NOSCRIPT".toList ++ " No matching script. Please use EVAL.\r\n".toList) ∧
    ∀ n, EvalEvent.compile n ∉ (evalGenericCommand ext st args true).trace := by
  unfold evalGenericCommand
  rw [hp]
  dsimp only
  rw [if_neg h1, if_neg h2]
  simp only [eq_self_iff_true, if_true]
  rw [if_neg hmem]
  refine ⟨rfl, rfl, ?_⟩
  intro n hn
  simp at hn

/-- Witness for C7: `EVALSHA` of an unknown 40-hex digest on a fresh engine. -/
theorem C7_evalsha_unknown_digest_noscript_witness :
    (evalGenericCommand evalExt0 evalSt0
        ["evalsha", "ffffffffffffffffffffffffffffffffffffffff", "0"] true).result =
      .error noScriptErrMsg ∧
    EvalEvent.compile "f_ffffffffffffffffffffffffffffffffffffffff" ∉
      (evalGenericCommand evalExt0 evalSt0
        ["evalsha", "ffffffffffffffffffffffffffffffffffffffff", "0"] true).trace :=
  ⟨(C7_evalsha_unknown_digest_noscript evalExt0 evalSt0
      ["evalsha", "ffffffffffffffffffffffffffffffffffffffff", "0"] 0
      rfl (by decide) (by decide) (by decide)).1,
   (C7_evalsha_unknown_digest_noscript evalExt0 evalSt0
      ["evalsha", "ffffffffffffffffffffffffffffffffffffffff", "0"] 0
      rfl (by decide) (by decide) (by decide)).2.2
      "f_ffffffffffffffffffffffffffffffffffffffff"⟩

/-- An EVAL invocation with valid `numkeys` whose function name is already
defined: the cache-hit path runs directly. -/
theorem eval_cached_run (ext : EvalExt) (st : EvalState) (args : List String) (nk : Int)
    (hp : parseInt (args.getD 2 "").toList = some nk)
    (h1 : ¬nk > (args.length : Int) - 3) (h2 : ¬nk < 0)
    (hm : ("f_" ++ ext.sha1hex (args.getD 1 "")) ∈ st.globals) :
    evalGenericCommand ext st args false =
      evalRun ext ⟨st.globals, redisSrand48 0, false, false, false⟩ args nk.toNat
        ("f_" ++ ext.sha1hex (args.getD 1 ""))
        [.reseedRng, .pushErrHandler,
         .lookupFunction ("f_" ++ ext.sha1hex (args.getD 1 ""))] := by
  unfold evalGenericCommand
  rw [hp]
  dsimp only
  rw [if_neg h1, if_neg h2]
  simp only [if_neg Bool.false_ne_true]
  rw [if_pos hm]
  rfl

/-- An EVAL invocation with valid `numkeys` whose function name is not yet
defined and whose compilation succeeds: the compile path defines the name and
runs. -/
theorem eval_compile_run (ext : EvalExt) (st : EvalState) (args : List String) (nk : Int)
    (hp : parseInt (args.getD 2 "").toList = some nk)
    (h1 : ¬nk > (args.length : Int) - 3) (h2 : ¬nk < 0)
    (hc : ext.compileOk = true)
    (hm : ("f_" ++ ext.sha1hex (args.getD 1 "")) ∉ st.globals) :
    evalGenericCommand ext st args false =
      evalRun ext
        ⟨("f_" ++ ext.sha1hex (args.getD 1 "")) :: st.globals,
         redisSrand48 0, false, false, false⟩ args nk.toNat
        ("f_" ++ ext.sha1hex (args.getD 1 ""))
        [.reseedRng, .pushErrHandler,
         .lookupFunction ("f_" ++ ext.sha1hex (args.getD 1 "")),
         .compile ("f_" ++ ext.sha1hex (args.getD 1 "")),
         .lookupFunction ("f_" ++ ext.sha1hex (args.getD 1 ""))] := by
  unfold evalGenericCommand
  rw [hp]
  dsimp only
  rw [if_neg h1, if_neg h2]
  simp only [if_neg Bool.false_ne_true]
  rw [if_neg hm, if_pos hc]
  rfl

/-- Claim C8: resolving the same script body twice is idempotent.  After any
first EVAL of the body (compiling or not), the digest-derived name is defined
in the interpreter's global namespace; the second EVAL finds it on the first
lookup and proceeds straight to binding and the call -- its trace contains no
compile event and no second lookup -- and both runs call the same
digest-derived function name. -/
theorem C8_second_resolution_is_cache_hit (ext : EvalExt) (st : EvalState)
    (args : List String) (nk : Int)
    (hp : parseInt (args.getD 2 "").toList = some nk)
    (h1 : ¬nk > (args.length : Int) - 3) (h2 : ¬nk < 0)
    (hc : ext.compileOk = true) (hl : ext.lockOk = true) :
    "f_" ++ ext.sha1hex (args.getD 1 "") ∈
      (evalGenericCommand ext st args false).state.globals ∧
    (evalGenericCommand ext (evalGenericCommand ext st args false).state
        args false).trace =
      [EvalEvent.reseedRng, EvalEvent.pushErrHandler,
       EvalEvent.lookupFunction ("f_" ++ ext.sha1hex (args.getD 1 "")),
       EvalEvent.bindKeys ((args.drop 3).take nk.toNat),
       EvalEvent.bindArgv (args.drop (3 + nk.toNat)),
       EvalEvent.lockKeys ((args.drop 3).take nk.toNat)] ++
      (if ext.luaTimeLimit > 0 then [EvalEvent.setHook] else []) ++
      [EvalEvent.callFunction ("f_" ++ ext.sha1hex (args.getD 1 ""))] ∧
    (∀ n, EvalEvent.compile n ∉
      (evalGenericCommand ext (evalGenericCommand ext st args false).state
        args false).trace) ∧
    EvalEvent.callFunction ("f_" ++ ext.sha1hex (args.getD 1 "")) ∈
      (evalGenericCommand ext st args false).trace := by
  have hglob : "f_" ++ ext.sha1hex (args.getD 1 "") ∈
      (evalGenericCommand ext st args false).state.globals := by
    by_cases hm : ("f_" ++ ext.sha1hex (args.getD 1 "")) ∈ st.globals
    · rw [eval_cached_run ext st args nk hp h1 h2 hm,
        (evalRun_out ext _ args nk.toNat _ _ hl).2.1]
      exact hm
    · rw [eval_compile_run ext st args nk hp h1 h2 hc hm,
        (evalRun_out ext _ args nk.toNat _ _ hl).2.1]
      exact List.mem_cons_self _ _
  have htr2 : (evalGenericCommand ext (evalGenericCommand ext st args false).state
      args false).trace =
      [EvalEvent.reseedRng, EvalEvent.pushErrHandler,
       EvalEvent.lookupFunction ("f_" ++ ext.sha1hex (args.getD 1 "")),
       EvalEvent.bindKeys ((args.drop 3).take nk.toNat),
       EvalEvent.bindArgv (args.drop (3 + nk.toNat)),
       EvalEvent.lockKeys ((args.drop 3).take nk.toNat)] ++
      (if ext.luaTimeLimit > 0 then [EvalEvent.setHook] else []) ++
      [EvalEvent.callFunction ("f_" ++ ext.sha1hex (args.getD 1 ""))] := by
    rw [eval_cached_run ext _ args nk hp h1 h2 hglob,
      (evalRun_out ext _ args nk.toNat _ _ hl).1]
    simp
  refine ⟨hglob, htr2, ?_, ?_⟩
  · intro n hn
    rw [htr2] at hn
    split at hn <;> simp_all
  · by_cases hm : ("f_" ++ ext.sha1hex (args.getD 1 "")) ∈ st.globals
    · rw [eval_cached_run ext st args nk hp h1 h2 hm,
        (evalRun_out ext _ args nk.toNat _ _ hl).1]
      simp
    · rw [eval_compile_run ext st args nk hp h1 h2 hc hm,
        (evalRun_out ext _ args nk.toNat _ _ hl).1]
      simp

/-- Witness for C8 at a concrete script body on a fresh engine. -/
theorem C8_second_resolution_is_cache_hit_witness :
    "f_" ++ evalExt0.sha1hex (evalArgs00.getD 1 "") ∈
      (evalGenericCommand evalExt0 evalSt0 evalArgs00 false).state.globals ∧
    (∀ n, EvalEvent.compile n ∉
      (evalGenericCommand evalExt0
        (evalGenericCommand evalExt0 evalSt0 evalArgs00 false).state
        evalArgs00 false).trace) ∧
    EvalEvent.callFunction ("f_" ++ evalExt0.sha1hex (evalArgs00.getD 1 "")) ∈
      (evalGenericCommand evalExt0 evalSt0 evalArgs00 false).trace :=
  ⟨(C8_second_resolution_is_cache_hit evalExt0 evalSt0 evalArgs00 0
      rfl (by decide) (by decide) rfl rfl).1,
   (C8_second_resolution_is_cache_hit evalExt0 evalSt0 evalArgs00 0
      rfl (by decide) (by decide) rfl rfl).2.2.1,
   (C8_second_resolution_is_cache_hit evalExt0 evalSt0 evalArgs00 0
      rfl (by decide) (by decide) rfl rfl).2.2.2⟩

/-- C9 counterexample: the claim says the KEYS/ARGV binding happens before
the RNG randomization/reseed step; in the code `_rand.redisSrand48(0)`
(lua_state.cpp:1011) is the first action of `evalGenericCommand`, while
`luaSetGlobalArray` runs only after resolution (lua_state.cpp:1067-1069).  On
this concrete `EVAL "return 1" 0` run the reseed is trace position 0 and the
KEYS binding is trace position 5, so the binding does not precede the
reseed. -/
theorem C9_counterexample_reseed_before_binding :
    (evalGenericCommand evalExt0 evalSt0 evalArgs00 false).trace =
      [EvalEvent.reseedRng, EvalEvent.pushErrHandler,
       EvalEvent.lookupFunction "f_da39a3ee5e6b4b0d3255bfef95601890afd80709",
       EvalEvent.compile "f_da39a3ee5e6b4b0d3255bfef95601890afd80709",
       EvalEvent.lookupFunction "f_da39a3ee5e6b4b0d3255bfef95601890afd80709",
       EvalEvent.bindKeys [], EvalEvent.bindArgv [], EvalEvent.lockKeys [],
       EvalEvent.setHook,
       EvalEvent.callFunction "f_da39a3ee5e6b4b0d3255bfef95601890afd80709"] ∧
    (evalGenericCommand evalExt0 evalSt0 evalArgs00 false).trace.indexOf
      EvalEvent.reseedRng = 0 ∧
    (evalGenericCommand evalExt0 evalSt0 evalArgs00 false).trace.indexOf
      (EvalEvent.bindKeys []) = 5 ∧
    ¬((evalGenericCommand evalExt0 evalSt0 evalArgs00 false).trace.indexOf
        (EvalEvent.bindKeys []) <
      (evalGenericCommand evalExt0 evalSt0 evalArgs00 false).trace.indexOf
        EvalEvent.reseedRng) :=
  ⟨rfl, by decide, by decide, by decide⟩

/-- Claim C9 (amended): in every top-level invocation that reaches the run
stage, KEYS and ARGV are bound as two freshly created ordinal arrays sized
exactly to the declared partitions (KEYS gets the `numkeys` entries
`args[3..3+numkeys)`, ARGV the remainder), and this binding happens after
the RNG reseed (which is the invocation's first step) and before key
locking: the trace is literally reseed, error-handler push, lookup (plus
compile and re-lookup on a cache miss), the two bindings, the lock, and the
call. -/
theorem C9_binding_between_reseed_and_lock (ext : EvalExt) (st : EvalState)
    (args : List String) (nk : Int)
    (hp : parseInt (args.getD 2 "").toList = some nk)
    (h1 : ¬nk > (args.length : Int) - 3) (h2 : ¬nk < 0)
    (hc : ext.compileOk = true) (hl : ext.lockOk = true) :
    ((evalGenericCommand ext st args false).trace =
       [EvalEvent.reseedRng, EvalEvent.pushErrHandler,
        EvalEvent.lookupFunction ("f_" ++ ext.sha1hex (args.getD 1 "")),
        EvalEvent.bindKeys ((args.drop 3).take nk.toNat),
        EvalEvent.bindArgv (args.drop (3 + nk.toNat)),
        EvalEvent.lockKeys ((args.drop 3).take nk.toNat)] ++
       (if ext.luaTimeLimit > 0 then [EvalEvent.setHook] else []) ++
       [EvalEvent.callFunction ("f_" ++ ext.sha1hex (args.getD 1 ""))] ∨
     (evalGenericCommand ext st args false).trace =
       [EvalEvent.reseedRng, EvalEvent.pushErrHandler,
        EvalEvent.lookupFunction ("f_" ++ ext.sha1hex (args.getD 1 "")),
        EvalEvent.compile ("f_" ++ ext.sha1hex (args.getD 1 "")),
        EvalEvent.lookupFunction ("f_" ++ ext.sha1hex (args.getD 1 "")),
        EvalEvent.bindKeys ((args.drop 3).take nk.toNat),
        EvalEvent.bindArgv (args.drop (3 + nk.toNat)),
        EvalEvent.lockKeys ((args.drop 3).take nk.toNat)] ++
       (if ext.luaTimeLimit > 0 then [EvalEvent.setHook] else []) ++
       [EvalEvent.callFunction ("f_" ++ ext.sha1hex (args.getD 1 ""))]) ∧
    ((args.drop 3).take nk.toNat).length = nk.toNat ∧
    (args.drop (3 + nk.toNat)).length = args.length - (3 + nk.toNat) := by
  refine ⟨?_, ?_, List.length_drop _ _⟩
  · by_cases hm : ("f_" ++ ext.sha1hex (args.getD 1 "")) ∈ st.globals
    · left
      rw [eval_cached_run ext st args nk hp h1 h2 hm,
        (evalRun_out ext _ args nk.toNat _ _ hl).1]
      simp
    · right
      rw [eval_compile_run ext st args nk hp h1 h2 hc hm,
        (evalRun_out ext _ args nk.toNat _ _ hl).1]
      simp
  · rw [List.length_take, List.length_drop]
    omega

/-- Witness for C9 (amended): `EVAL <body> 1 k v` binds `KEYS = [k]` and
`ARGV = [v]` between the reseed and the lock. -/
theorem C9_binding_between_reseed_and_lock_witness :
    ((evalGenericCommand evalExt0 evalSt0 ["eval", "return 1", "1", "k", "v"] false).trace =
       [EvalEvent.reseedRng, EvalEvent.pushErrHandler,
        EvalEvent.lookupFunction "f_da39a3ee5e6b4b0d3255bfef95601890afd80709",
        EvalEvent.bindKeys ["k"], EvalEvent.bindArgv ["v"], EvalEvent.lockKeys ["k"]] ++
       (if evalExt0.luaTimeLimit > 0 then [EvalEvent.setHook] else []) ++
       [EvalEvent.callFunction "f_da39a3ee5e6b4b0d3255bfef95601890afd80709"] ∨
     (evalGenericCommand evalExt0 evalSt0 ["eval", "return 1", "1", "k", "v"] false).trace =
       [EvalEvent.reseedRng, EvalEvent.pushErrHandler,
        EvalEvent.lookupFunction "f_da39a3ee5e6b4b0d3255bfef95601890afd80709",
        EvalEvent.compile "f_da39a3ee5e6b4b0d3255bfef95601890afd80709",
        EvalEvent.lookupFunction "f_da39a3ee5e6b4b0d3255bfef95601890afd80709",
        EvalEvent.bindKeys ["k"], EvalEvent.bindArgv ["v"], EvalEvent.lockKeys ["k"]] ++
       (if evalExt0.luaTimeLimit > 0 then [EvalEvent.setHook] else []) ++
       [EvalEvent.callFunction "f_da39a3ee5e6b4b0d3255bfef95601890afd80709"]) ∧
    ([("k" : String)]).length = (1 : Int).toNat ∧
    ([("v" : String)]).length = (5 : Nat) - (3 + (1 : Int).toNat) :=
  C9_binding_between_reseed_and_lock evalExt0 evalSt0 ["eval", "return 1", "1", "k", "v"] 1
    rfl (by decide) (by decide) rfl rfl
